import Mathlib

/-!
Verification of the `lipbalm` terminal-styling library (`src/lib.rs`,
`src/colors.rs`, `src/styles.rs`) against its specification.

Modelling conventions:
* Rust strings (`&str`, `String`) are modelled as `List Char` (`Chars`);
  all library-produced content is ASCII, and user text is only concatenated,
  so the character-level view is faithful.
* `u8` payloads are modelled as `Nat`; where `u8` overflow could matter
  (the background `+ 10` computation) the wrap-around `% 256` is explicit.
* Fallible code is modelled with `Option`: a Rust panic is `none`.
  In particular `&hex[1..]` in `hex_to_rgb` panics when the string is empty
  (byte index 1 out of bounds) or when its first character occupies more
  than one UTF-8 byte (not a char boundary); both become `none`.
-/

/-- The characters of a Rust string. -/
abbrev Chars := List Char

/-- The character list of a Lean string literal, used to write Rust string
literals in statements. -/
def S (s : String) : Chars := s.data

/-- Decimal rendering of an unsigned integer, as Rust's `Display` writes it. -/
def natToChars (n : Nat) : Chars := (Nat.repr n).data

/-- The value of one hexadecimal digit, as accepted by
`u32::from_str_radix(_, 16)` (ASCII `0-9`, `a-f`, `A-F` only). -/
def hexDigitVal (c : Char) : Option Nat :=
  if '0' ≤ c ∧ c ≤ '9' then some (c.toNat - '0'.toNat)
  else if 'a' ≤ c ∧ c ≤ 'f' then some (c.toNat - 'a'.toNat + 10)
  else if 'A' ≤ c ∧ c ≤ 'F' then some (c.toNat - 'A'.toNat + 10)
  else none

/-- Digit loop of `u32::from_str_radix(_, 16)`: every character must be a hex
digit and the accumulated value must stay below `2 ^ 32` (Rust reports
overflow as an error). -/
def parseHexNat : Chars → Nat → Option Nat
  | [], acc => some acc
  | c :: rest, acc =>
    match hexDigitVal c with
    | none => none
    | some d =>
      if acc * 16 + d < 2 ^ 32 then parseHexNat rest (acc * 16 + d) else none

/-- `u32::from_str_radix(s, 16)`: an optional leading `+` (a lone sign or an
empty string is an error; `-` is an invalid digit for an unsigned target),
then one or more hex digits, value below `2 ^ 32`. -/
def fromStrRadix16 : Chars → Option Nat
  | [] => none
  | ['+'] => none
  | '+' :: rest => parseHexNat rest 0
  | s => parseHexNat s 0

/-- `hex_to_rgb` from `src/colors.rs`.  `&hex[1..]` panics (`none`) when the
string is empty or its first character is wider than one UTF-8 byte; otherwise
the tail is parsed as hex with parse errors defaulting to `0` (`unwrap_or(0)`)
and the low three bytes are split out as `(r, g, b)`. -/
def hex_to_rgb (hex : Chars) : Option (Nat × Nat × Nat) :=
  match hex with
  | [] => none
  | c :: rest =>
    if c.utf8Size = 1 then
      let v := (fromStrRadix16 rest).getD 0
      some (v / 2 ^ 16 % 2 ^ 8, v / 2 ^ 8 % 2 ^ 8, v % 2 ^ 8)
    else none

/-- The `Color` enum from `src/colors.rs`. -/
inductive Color where
  | Reset
  | Black
  | Red
  | Green
  | Yellow
  | Blue
  | Magenta
  | Cyan
  | White
  | BrightBlack
  | BrightRed
  | BrightGreen
  | BrightYellow
  | BrightBlue
  | BrightMagenta
  | BrightCyan
  | BrightWhite
  | Rgb (r g b : Nat)
  | C256 (c : Nat)
  | Hex (s : Chars)
deriving DecidableEq

/-- `Color::to_ansi` from `src/colors.rs`; `none` is the panic of the `Hex`
branch propagated out of `hex_to_rgb`. -/
def Color.to_ansi : Color → Option Chars
  | .Reset => some (S "0")
  | .Black => some (S "30")
  | .Red => some (S "31")
  | .Green => some (S "32")
  | .Yellow => some (S "33")
  | .Blue => some (S "34")
  | .Magenta => some (S "35")
  | .Cyan => some (S "36")
  | .White => some (S "37")
  | .BrightBlack => some (S "90")
  | .BrightRed => some (S "91")
  | .BrightGreen => some (S "92")
  | .BrightYellow => some (S "93")
  | .BrightBlue => some (S "94")
  | .BrightMagenta => some (S "95")
  | .BrightCyan => some (S "96")
  | .BrightWhite => some (S "97")
  | .C256 c => some (S "5;" ++ natToChars c)
  | .Rgb r g b =>
    some (S "2;" ++ natToChars r ++ S ";" ++ natToChars g ++ S ";" ++ natToChars b)
  | .Hex s =>
    (hex_to_rgb s).map fun rgb =>
      S "2;" ++ natToChars rgb.1 ++ S ";" ++ natToChars rgb.2.1 ++ S ";" ++ natToChars rgb.2.2

/-- The `Styles` enum from `src/styles.rs`. -/
inductive Styles where
  | Reset
  | Bold
  | Dim
  | Italic
  | Underline
  | Blink
  | Reverse
  | Hidden
  | Strikethrough
deriving DecidableEq

/-- `Styles::to_ansi` from `src/styles.rs` (total; code 6 does not appear). -/
def Styles.to_ansi : Styles → Chars
  | .Reset => S "0"
  | .Bold => S "1"
  | .Dim => S "2"
  | .Italic => S "3"
  | .Underline => S "4"
  | .Blink => S "5"
  | .Reverse => S "7"
  | .Hidden => S "8"
  | .Strikethrough => S "9"

/-- The `Lipbalm` builder struct from `src/lib.rs`. -/
structure Lipbalm where
  foreground : Option Color
  background : Option Color
  bold : Bool
  dim : Bool
  italic : Bool
  underline : Bool
  blink : Bool
  reverse : Bool
  hidden : Bool
  strikethrough : Bool
  link : Option Chars
deriving DecidableEq

/-- `Lipbalm::new`: all fields unset / false. -/
def Lipbalm.new : Lipbalm where
  foreground := none
  background := none
  bold := false
  dim := false
  italic := false
  underline := false
  blink := false
  reverse := false
  hidden := false
  strikethrough := false
  link := none

/-- Setter `Lipbalm::bold`. -/
def Lipbalm.setBold (self : Lipbalm) (yes : Bool) : Lipbalm := { self with bold := yes }

/-- Setter `Lipbalm::dim`. -/
def Lipbalm.setDim (self : Lipbalm) (yes : Bool) : Lipbalm := { self with dim := yes }

/-- Setter `Lipbalm::italic`. -/
def Lipbalm.setItalic (self : Lipbalm) (yes : Bool) : Lipbalm := { self with italic := yes }

/-- Setter `Lipbalm::underline`. -/
def Lipbalm.setUnderline (self : Lipbalm) (yes : Bool) : Lipbalm := { self with underline := yes }

/-- Setter `Lipbalm::blink`. -/
def Lipbalm.setBlink (self : Lipbalm) (yes : Bool) : Lipbalm := { self with blink := yes }

/-- Setter `Lipbalm::reverse`. -/
def Lipbalm.setReverse (self : Lipbalm) (yes : Bool) : Lipbalm := { self with reverse := yes }

/-- Setter `Lipbalm::hidden`. -/
def Lipbalm.setHidden (self : Lipbalm) (yes : Bool) : Lipbalm := { self with hidden := yes }

/-- Setter `Lipbalm::strikethrough`. -/
def Lipbalm.setStrikethrough (self : Lipbalm) (yes : Bool) : Lipbalm :=
  { self with strikethrough := yes }

/-- Setter `Lipbalm::foreground`. -/
def Lipbalm.setForeground (self : Lipbalm) (color : Color) : Lipbalm :=
  { self with foreground := some color }

/-- Setter `Lipbalm::background`. -/
def Lipbalm.setBackground (self : Lipbalm) (color : Color) : Lipbalm :=
  { self with background := some color }

/-- Setter `Lipbalm::link`. -/
def Lipbalm.setLink (self : Lipbalm) (l : Chars) : Lipbalm := { self with link := some l }

/-- `Lipbalm::apply_foreground` from `src/lib.rs`: `unwrap` the foreground
field (panic when unset), convert, and prefix `38;` for the `Rgb`, `C256`
and `Hex` variants. -/
def Lipbalm.apply_foreground (self : Lipbalm) : Option Chars :=
  self.foreground.bind fun value =>
    value.to_ansi.map fun ansi =>
      match value with
      | .Rgb _ _ _ | .C256 _ | .Hex _ => S "38;" ++ ansi
      | _ => ansi

/-- Decimal digit loop of `str::parse::<u8>`: every character a decimal digit,
value at most `255`. -/
def parseDecNat : Chars → Nat → Option Nat
  | [], acc => some acc
  | c :: rest, acc =>
    if '0' ≤ c ∧ c ≤ '9' then
      let v := acc * 10 + (c.toNat - '0'.toNat)
      if v < 2 ^ 8 then parseDecNat rest v else none
    else none

/-- `str::parse::<u8>()`: an optional leading `+` then one or more decimal
digits, value at most `255`; anything else is an error. -/
def parseU8 : Chars → Option Nat
  | [] => none
  | ['+'] => none
  | '+' :: rest => parseDecNat rest 0
  | s => parseDecNat s 0

/-- `Lipbalm::apply_background` from `src/lib.rs`: default the field to
`Reset`, convert (a `Hex` panic propagates), then: `Reset` stays raw,
`Rgb`/`C256`/`Hex` get a `48;` prefix, and a named color is re-parsed from its
`Display` string (which is `to_ansi`) as a `u8` (`unwrap`: a parse failure
panics) and shifted by `+ 10` (u8 arithmetic, wrap-around made explicit). -/
def Lipbalm.apply_background (self : Lipbalm) : Option Chars :=
  let value := self.background.getD .Reset
  value.to_ansi.bind fun ansi =>
    match value with
    | .Reset => some ansi
    | .Rgb _ _ _ | .C256 _ | .Hex _ => some (S "48;" ++ ansi)
    | _ => (parseU8 ansi).map fun nr => natToChars ((nr + 10) % 2 ^ 8)

/-- `Vec::join(sep)`: the elements separated by `sep`. -/
def joinSep (sep : Chars) : List Chars → Chars
  | [] => []
  | [x] => x
  | x :: xs => x ++ sep ++ joinSep sep xs

/-- Lines 154–184 of `src/lib.rs`: one conditional push per style flag, in
source order, onto the styles vector `s2`. -/
def pushStyles (self : Lipbalm) (s2 : List Chars) : List Chars :=
  let s3 := if self.bold then s2 ++ [Styles.Bold.to_ansi] else s2
  let s4 := if self.dim then s3 ++ [Styles.Dim.to_ansi] else s3
  let s5 := if self.italic then s4 ++ [Styles.Italic.to_ansi] else s4
  let s6 := if self.underline then s5 ++ [Styles.Underline.to_ansi] else s5
  let s7 := if self.blink then s6 ++ [Styles.Blink.to_ansi] else s6
  let s8 := if self.reverse then s7 ++ [Styles.Reverse.to_ansi] else s7
  let s9 := if self.hidden then s8 ++ [Styles.Hidden.to_ansi] else s8
  if self.strikethrough then s9 ++ [Styles.Strikethrough.to_ansi] else s9

/-- Lines 144–191 of `src/lib.rs` (`Lipbalm::render` before the hyperlink
step): push the fragments in source order, drop empty ones, join with `;`
and wrap as `ESC [ params m text ESC [0m`. -/
def sgrResult (self : Lipbalm) (text : Chars) : Option Chars := do
  let s0 : List Chars := []
  let s1 ←
    if self.foreground.isSome then do
      let f ← self.apply_foreground
      pure (s0 ++ [f])
    else pure s0
  let s2 ←
    if self.background.isSome then do
      let f ← self.apply_background
      pure (s1 ++ [f])
    else pure s1
  let s10 := pushStyles self s2
  let kept := s10.filter fun s => !s.isEmpty
  pure (S "\x1b[" ++ joinSep (S ";") kept ++ S "m" ++ text ++ S "\x1b[0m")

/-- `Lipbalm::render` from `src/lib.rs`: the SGR result of lines 144–191,
wrapped in the OSC-8 hyperlink sequence when a link is set. -/
def Lipbalm.render (self : Lipbalm) (text : Chars) : Option Chars := do
  let result ← sgrResult self text
  match self.link with
  | some link =>
    pure (S "\x1b]8;;" ++ link ++ S "\x1b\\" ++ result ++ S "\x1b]8;;" ++ S "\x1b\\")
  | none => pure result

/-- The style fragments as the specification describes them: one fragment per
true flag, in the fixed order bold, dim, italic, underline, blink, reverse,
hidden, strikethrough. -/
def styleFrags (self : Lipbalm) : List Chars :=
  (if self.bold then [Styles.Bold.to_ansi] else [])
    ++ (if self.dim then [Styles.Dim.to_ansi] else [])
    ++ (if self.italic then [Styles.Italic.to_ansi] else [])
    ++ (if self.underline then [Styles.Underline.to_ansi] else [])
    ++ (if self.blink then [Styles.Blink.to_ansi] else [])
    ++ (if self.reverse then [Styles.Reverse.to_ansi] else [])
    ++ (if self.hidden then [Styles.Hidden.to_ansi] else [])
    ++ (if self.strikethrough then [Styles.Strikethrough.to_ansi] else [])

/-- The parameter fragments as the specification describes them: one fragment
per set/true field, in the fixed order foreground, background, then the eight
style flags. -/
def fragmentList (self : Lipbalm) : Option (List Chars) := do
  let fg ←
    match self.foreground with
    | some _ => self.apply_foreground.map fun f => [f]
    | none => pure []
  let bg ←
    match self.background with
    | some _ => self.apply_background.map fun f => [f]
    | none => pure []
  pure (fg ++ bg ++ styleFrags self)

/-- The `Rgb` / `C256` / `Hex` variants, the ones that receive a `38;` or
`48;` selector prefix from the builder. -/
def isExtended : Color → Bool
  | .Rgb _ _ _ | .C256 _ | .Hex _ => true
  | _ => false

/-- The sixteen named basic/bright colors (everything except `Reset` and the
`Rgb` / `C256` / `Hex` payload variants). -/
def isNamed : Color → Bool
  | .Black | .Red | .Green | .Yellow | .Blue | .Magenta | .Cyan | .White
  | .BrightBlack | .BrightRed | .BrightGreen | .BrightYellow | .BrightBlue
  | .BrightMagenta | .BrightCyan | .BrightWhite => true
  | _ => false

/-- The documented ANSI foreground code of each named color (junk `0` on the
other variants, which never reach it). -/
def namedFgCode : Color → Nat
  | .Black => 30
  | .Red => 31
  | .Green => 32
  | .Yellow => 33
  | .Blue => 34
  | .Magenta => 35
  | .Cyan => 36
  | .White => 37
  | .BrightBlack => 90
  | .BrightRed => 91
  | .BrightGreen => 92
  | .BrightYellow => 93
  | .BrightBlue => 94
  | .BrightMagenta => 95
  | .BrightCyan => 96
  | .BrightWhite => 97
  | _ => 0

/-- From the specification: a well-formed hex color string is exactly the
character `#` followed by six hexadecimal digits. -/
def isWellFormedHex (s : Chars) : Bool :=
  match s with
  | '#' :: rest => rest.length == 6 && rest.all fun c => (hexDigitVal c).isSome
  | _ => false

theorem ite_append_singleton (b : Bool) (s : List Chars) (x : Chars) :
    (if b then s ++ [x] else s) = s ++ (if b then [x] else []) := by
  cases b <;> simp

theorem filter_singleton_append (p : Chars → Bool) (x : Chars) (l : List Chars) :
    List.filter p [x] ++ List.filter p l = List.filter p (x :: l) := by
  cases h : p x <;> simp [List.filter_cons, h]

/-- The eight conditional pushes append exactly the specification's style
fragments. -/
theorem pushStyles_eq (lb : Lipbalm) (s2 : List Chars) :
    pushStyles lb s2 = s2 ++ styleFrags lb := by
  simp only [pushStyles, styleFrags]
  rw [ite_append_singleton lb.bold, ite_append_singleton lb.dim,
    ite_append_singleton lb.italic, ite_append_singleton lb.underline,
    ite_append_singleton lb.blink, ite_append_singleton lb.reverse,
    ite_append_singleton lb.hidden, ite_append_singleton lb.strikethrough]
  simp [List.append_assoc]

/-- The styles vector built by `render` is exactly the specification's
fragment list; the SGR result wraps its `;`-join (after the source's
empty-fragment filter). -/
theorem sgrResult_eq (lb : Lipbalm) (text : Chars) :
    sgrResult lb text =
      (fragmentList lb).map fun fs =>
        S "\x1b[" ++ joinSep (S ";") (fs.filter fun s => !s.isEmpty) ++ S "m" ++ text ++
          S "\x1b[0m" := by
  cases hfg : lb.foreground with
  | none =>
    cases hbg : lb.background with
    | none =>
      simp [sgrResult, fragmentList, hfg, hbg, pushStyles_eq, List.append_assoc]
    | some d =>
      cases hb : lb.apply_background with
      | none => simp [sgrResult, fragmentList, hfg, hbg, hb]
      | some b =>
        simp [sgrResult, fragmentList, hfg, hbg, hb, pushStyles_eq, filter_singleton_append,
          List.append_assoc]
  | some c =>
    cases hf : lb.apply_foreground with
    | none => simp [sgrResult, fragmentList, hfg, hf]
    | some f =>
      cases hbg : lb.background with
      | none =>
        simp [sgrResult, fragmentList, hfg, hbg, hf, pushStyles_eq, filter_singleton_append,
          List.append_assoc]
      | some d =>
        cases hb : lb.apply_background with
        | none => simp [sgrResult, fragmentList, hfg, hbg, hf, hb]
        | some b =>
          simp [sgrResult, fragmentList, hfg, hbg, hf, hb, pushStyles_eq, filter_singleton_append,
            List.append_assoc]

/-- A foreground fragment is never the empty string. -/
theorem apply_foreground_ne_nil (lb : Lipbalm) (f : Chars)
    (h : lb.apply_foreground = some f) : f.isEmpty = false := by
  obtain ⟨fg, bg, b1, b2, b3, b4, b5, b6, b7, b8, lk⟩ := lb
  cases fg with
  | none => exact absurd h (by simp [Lipbalm.apply_foreground])
  | some c =>
    cases c <;>
      first
        | (injection h with h; rw [← h]; rfl)
        | (rename_i s
           cases hx : hex_to_rgb s with
           | none => simp [Lipbalm.apply_foreground, Color.to_ansi, hx] at h
           | some rgb =>
             simp only [Lipbalm.apply_foreground, Color.to_ansi, hx, Option.map_some',
               Option.some_bind] at h
             injection h with h
             rw [← h]; rfl)

/-- A background fragment is never the empty string. -/
theorem apply_background_ne_nil (lb : Lipbalm) (f : Chars)
    (h : lb.apply_background = some f) : f.isEmpty = false := by
  obtain ⟨fg, bg, b1, b2, b3, b4, b5, b6, b7, b8, lk⟩ := lb
  cases bg with
  | none => injection h with h; rw [← h]; rfl
  | some c =>
    cases c <;>
      first
        | (injection h with h; rw [← h]; rfl)
        | (rename_i s
           cases hx : hex_to_rgb s with
           | none => simp [Lipbalm.apply_background, Color.to_ansi, hx] at h
           | some rgb =>
             simp only [Lipbalm.apply_background, Color.to_ansi, hx, Option.getD_some,
               Option.map_some', Option.some_bind] at h
             injection h with h
             rw [← h]; rfl)

/-- A style fragment is never the empty string. -/
theorem styles_to_ansi_ne_nil (st : Styles) : st.to_ansi.isEmpty = false := by
  cases st <;> rfl

theorem mem_ite_nil (b : Bool) (x s : Chars) :
    (s ∈ if b then [x] else []) ↔ b = true ∧ s = x := by
  cases b <;> simp

/-- Every member of the style-fragment list is some style's ANSI code. -/
theorem mem_styleFrags (lb : Lipbalm) (s : Chars) (hs : s ∈ styleFrags lb) :
    ∃ st : Styles, s = st.to_ansi := by
  simp only [styleFrags, List.mem_append] at hs
  repeat' rcases hs with hs | hs
  all_goals exact ⟨_, ((mem_ite_nil _ _ _).mp hs).2⟩

/-- Every member of the specification's fragment list is a foreground
fragment, a background fragment, or a style fragment. -/
theorem mem_fragmentList (lb : Lipbalm) (fs : List Chars) (s : Chars)
    (h : fragmentList lb = some fs) (hs : s ∈ fs) :
    lb.apply_foreground = some s ∨ lb.apply_background = some s ∨
      ∃ st : Styles, s = st.to_ansi := by
  cases hfg : lb.foreground with
  | none =>
    cases hbg : lb.background with
    | none =>
      simp [fragmentList, hfg, hbg] at h
      subst h
      exact .inr (.inr (mem_styleFrags lb s hs))
    | some d =>
      cases hb : lb.apply_background with
      | none => simp [fragmentList, hfg, hbg, hb] at h
      | some b =>
        simp [fragmentList, hfg, hbg, hb] at h
        subst h
        rw [List.mem_cons] at hs
        rcases hs with rfl | hs
        · exact .inr (.inl rfl)
        · exact .inr (.inr (mem_styleFrags lb s hs))
  | some c =>
    cases hf : lb.apply_foreground with
    | none => simp [fragmentList, hfg, hf] at h
    | some f =>
      cases hbg : lb.background with
      | none =>
        simp [fragmentList, hfg, hbg, hf] at h
        subst h
        rw [List.mem_cons] at hs
        rcases hs with rfl | hs
        · exact .inl rfl
        · exact .inr (.inr (mem_styleFrags lb s hs))
      | some d =>
        cases hb : lb.apply_background with
        | none => simp [fragmentList, hfg, hbg, hf, hb] at h
        | some b =>
          simp [fragmentList, hfg, hbg, hf, hb] at h
          subst h
          rw [List.mem_cons, List.mem_cons] at hs
          rcases hs with rfl | rfl | hs
          · exact .inl rfl
          · exact .inr (.inl rfl)
          · exact .inr (.inr (mem_styleFrags lb s hs))

/-- None of the fragments is empty, so the source's empty-fragment filter
keeps them all. -/
theorem fragmentList_filter (lb : Lipbalm) (fs : List Chars)
    (h : fragmentList lb = some fs) : (fs.filter fun s => !s.isEmpty) = fs := by
  rw [List.filter_eq_self]
  intro s hs
  rcases mem_fragmentList lb fs s h hs with hf | hb | ⟨st, rfl⟩
  · simp [apply_foreground_ne_nil lb s hf]
  · simp [apply_background_ne_nil lb s hb]
  · simp [styles_to_ansi_ne_nil st]

example : Lipbalm.new.render (S "Hello, world!") = some (S "\x1b[mHello, world!\x1b[0m") := by
  decide

example :
    ((((Lipbalm.new.setBold true).setUnderline true).setForeground .Red).setBackground
          .Green).render (S "Hello, world!") =
      some (S "\x1b[31;42;1;4mHello, world!\x1b[0m") := by
  decide

example :
    ((Lipbalm.new.setForeground .Red).setLink (S "https://example.com")).render
        (S "Hello, world!") =
      some
        (S "\x1b]8;;https://example.com\x1b\\\x1b[31mHello, world!\x1b[0m\x1b]8;;\x1b\\") := by
  decide

example :
    ((Lipbalm.new.setForeground (.Hex (S "#ff0000"))).setBackground
          (.Hex (S "#00ff00"))).render (S "Hello, world!") =
      some (S "\x1b[38;2;255;0;0;48;2;0;255;0mHello, world!\x1b[0m") := by
  decide

example :
    ((Lipbalm.new.setForeground (.C256 1)).setBackground (.C256 2)).render (S "Hello, world!") =
      some (S "\x1b[38;5;1;48;5;2mHello, world!\x1b[0m") := by
  decide

example :
    ((Lipbalm.new.setForeground .Red).setForeground .Reset).render (S "Hello, world!") =
      some (S "\x1b[0mHello, world!\x1b[0m") := by
  decide

example : Color.to_ansi (.Hex (S "")) = none := by decide

example : Color.to_ansi (.Hex (S "#FFF")) = some (S "2;0;15;255") := by decide

/-- C3: every leaf variant's ANSI fragment is its documented fixed string:
the sixteen named colors map to "30"–"37" and "90"–"97", Reset to "0",
C256(n) to "5;" ++ n, Rgb(r,g,b) to "2;r;g;b", and the style attributes
Reset, Bold, Dim, Italic, Underline, Blink, Reverse, Hidden, Strikethrough
map to "0","1","2","3","4","5","7","8","9"; the code "6" is never produced. -/
theorem c3_leaf_fragments :
    Color.to_ansi .Reset = some (S "0") ∧
    Color.to_ansi .Black = some (S "30") ∧
    Color.to_ansi .Red = some (S "31") ∧
    Color.to_ansi .Green = some (S "32") ∧
    Color.to_ansi .Yellow = some (S "33") ∧
    Color.to_ansi .Blue = some (S "34") ∧
    Color.to_ansi .Magenta = some (S "35") ∧
    Color.to_ansi .Cyan = some (S "36") ∧
    Color.to_ansi .White = some (S "37") ∧
    Color.to_ansi .BrightBlack = some (S "90") ∧
    Color.to_ansi .BrightRed = some (S "91") ∧
    Color.to_ansi .BrightGreen = some (S "92") ∧
    Color.to_ansi .BrightYellow = some (S "93") ∧
    Color.to_ansi .BrightBlue = some (S "94") ∧
    Color.to_ansi .BrightMagenta = some (S "95") ∧
    Color.to_ansi .BrightCyan = some (S "96") ∧
    Color.to_ansi .BrightWhite = some (S "97") ∧
    (∀ n : Nat, Color.to_ansi (.C256 n) = some (S "5;" ++ natToChars n)) ∧
    (∀ r g b : Nat, Color.to_ansi (.Rgb r g b) =
      some (S "2;" ++ natToChars r ++ S ";" ++ natToChars g ++ S ";" ++ natToChars b)) ∧
    Styles.to_ansi .Reset = S "0" ∧
    Styles.to_ansi .Bold = S "1" ∧
    Styles.to_ansi .Dim = S "2" ∧
    Styles.to_ansi .Italic = S "3" ∧
    Styles.to_ansi .Underline = S "4" ∧
    Styles.to_ansi .Blink = S "5" ∧
    Styles.to_ansi .Reverse = S "7" ∧
    Styles.to_ansi .Hidden = S "8" ∧
    Styles.to_ansi .Strikethrough = S "9" ∧
    (∀ st : Styles, (Styles.to_ansi st == S "6") = false) := by
  repeat' apply And.intro
  all_goals first
    | rfl
    | (intros; rfl)
    | (intro st; cases st <;> decide)

/-- C5: the specification says every operation is total and malformed hex
degrades to (0,0,0), but the code's `&hex[1..]` slice panics on
`Color::Hex("")` (byte index 1 out of bounds on a string of length 0), so
`to_ansi` and any `render` that reaches it fail instead of returning. -/
theorem c5_totality_code_bug :
    Color.to_ansi (.Hex (S "")) = none ∧
    ({ Lipbalm.new with foreground := some (.Hex (S "")) }).render (S "x") = none := by
  exact ⟨rfl, rfl⟩

/-- C4 counterexample: `"#FFF"` is not `#` followed by six hex digits, yet its
fragment is `"2;0;15;255"` (the low three bytes of the parsed value 0xFFF),
not the claimed `"2;0;0;0"`. -/
theorem c4_counterexample :
    isWellFormedHex (S "#FFF") = false ∧
    Color.to_ansi (.Hex (S "#FFF")) = some (S "2;0;15;255") ∧
    (Color.to_ansi (.Hex (S "#FFF")) == some (S "2;0;0;0")) = false := by
  refine ⟨rfl, rfl, ?_⟩
  decide

/-- C4 amended: a Hex payload resolves to RGB (0,0,0) exactly when its tail
(after a one-byte first character) fails to parse as a hexadecimal `u32`;
tails that do parse give the low three bytes of the parsed value, and an
empty payload or a multi-byte first character panics rather than defaulting. -/
theorem c4_malformed_hex (c : Char) (rest : Chars) (h1 : c.utf8Size = 1)
    (h2 : fromStrRadix16 rest = none) :
    Color.to_ansi (.Hex (c :: rest)) = some (S "2;0;0;0") := by
  have hx : hex_to_rgb (c :: rest) = some (0, 0, 0) := by
    simp [hex_to_rgb, h1, h2]
  simp [Color.to_ansi, hx]
  rfl

theorem c4_malformed_hex_witness :
    ('#'.utf8Size = 1 ∧ fromStrRadix16 (S "zz") = none) ∧
    Color.to_ansi (.Hex ('#' :: S "zz")) = some (S "2;0;0;0") :=
  ⟨⟨by decide, by decide⟩, c4_malformed_hex '#' (S "zz") (by decide) (by decide)⟩

/-- C2: a foreground fragment carries the `38;` prefix exactly for the
Rgb/C256/Hex variants and is the raw code for named colors and Reset; a
background fragment is `0` for Reset, `48;`-prefixed for Rgb/C256/Hex, and
the named foreground code plus 10 for a named basic/bright color. -/
theorem c2_selector_prefixes :
    (∀ (lb : Lipbalm) (c : Color) (a : Chars), lb.foreground = some c →
      c.to_ansi = some a →
      lb.apply_foreground = some (if isExtended c then S "38;" ++ a else a)) ∧
    (∀ lb : Lipbalm, lb.background = some .Reset →
      lb.apply_background = some (S "0")) ∧
    (∀ (lb : Lipbalm) (c : Color) (a : Chars), lb.background = some c →
      isExtended c = true → c.to_ansi = some a →
      lb.apply_background = some (S "48;" ++ a)) ∧
    (∀ (lb : Lipbalm) (c : Color), lb.background = some c → isNamed c = true →
      lb.apply_background = some (natToChars (namedFgCode c + 10))) := by
  refine ⟨?_, ?_, ?_, ?_⟩
  · intro lb c a hfg hc
    cases c <;> simp [Lipbalm.apply_foreground, hfg, hc, isExtended]
  · intro lb hbg
    simp [Lipbalm.apply_background, hbg, Color.to_ansi]
  · intro lb c a hbg hext hc
    cases c <;>
      first
        | (simp [Lipbalm.apply_background, hbg, hc]; done)
        | (simp [isExtended] at hext; done)
  · intro lb c hbg hname
    cases c <;>
      first
        | (simp only [Lipbalm.apply_background, hbg]; rfl)
        | (simp [isNamed] at hname; done)

theorem c2_selector_prefixes_witness :
    (Lipbalm.new.setForeground (.C256 7)).apply_foreground = some (S "38;5;7") ∧
    (Lipbalm.new.setForeground .Red).apply_foreground = some (S "31") ∧
    (Lipbalm.new.setBackground .Reset).apply_background = some (S "0") ∧
    (Lipbalm.new.setBackground (.Rgb 1 2 3)).apply_background = some (S "48;2;1;2;3") ∧
    (Lipbalm.new.setBackground .Green).apply_background = some (S "42") :=
  ⟨(c2_selector_prefixes.1 (Lipbalm.new.setForeground (.C256 7)) (.C256 7)
      (S "5;" ++ natToChars 7) rfl rfl).trans (by decide),
    (c2_selector_prefixes.1 (Lipbalm.new.setForeground .Red) .Red (S "31")
      rfl rfl).trans (by decide),
    c2_selector_prefixes.2.1 (Lipbalm.new.setBackground .Reset) rfl,
    (c2_selector_prefixes.2.2.1 (Lipbalm.new.setBackground (.Rgb 1 2 3)) (.Rgb 1 2 3)
      (S "2;" ++ natToChars 1 ++ S ";" ++ natToChars 2 ++ S ";" ++ natToChars 3)
      rfl rfl rfl).trans (by decide),
    (c2_selector_prefixes.2.2.2 (Lipbalm.new.setBackground .Green) .Green
      rfl rfl).trans (by decide)⟩

/-- C10: when the background holds a named basic/bright color, the round trip
through its display string and `parse::<u8>` always succeeds and returns the
foreground code (30–37 or 90–97); adding 10 stays inside the u8 range (the
`% 256` wrap is the identity, so no overflow) and lands exactly in 40–47 or
100–107. -/
theorem c10_named_background_safe (lb : Lipbalm) (c : Color)
    (hbg : lb.background = some c) (hname : isNamed c = true) :
    ∃ a, c.to_ansi = some a ∧ parseU8 a = some (namedFgCode c) ∧
      (30 ≤ namedFgCode c ∧ namedFgCode c ≤ 37 ∨
        90 ≤ namedFgCode c ∧ namedFgCode c ≤ 97) ∧
      namedFgCode c + 10 < 2 ^ 8 ∧
      (namedFgCode c + 10) % 2 ^ 8 = namedFgCode c + 10 ∧
      (40 ≤ namedFgCode c + 10 ∧ namedFgCode c + 10 ≤ 47 ∨
        100 ≤ namedFgCode c + 10 ∧ namedFgCode c + 10 ≤ 107) ∧
      lb.apply_background = some (natToChars (namedFgCode c + 10)) := by
  cases c <;>
    first
      | (refine ⟨_, rfl, ?_, ?_, ?_, ?_, ?_, ?_⟩ <;>
          first
            | decide
            | (simp only [Lipbalm.apply_background, hbg]; rfl))
      | (simp [isNamed] at hname; done)

theorem c10_named_background_safe_witness :
    ∃ a, Color.to_ansi .Magenta = some a ∧
      parseU8 a = some (namedFgCode .Magenta) ∧
      (30 ≤ namedFgCode .Magenta ∧ namedFgCode .Magenta ≤ 37 ∨
        90 ≤ namedFgCode .Magenta ∧ namedFgCode .Magenta ≤ 97) ∧
      namedFgCode .Magenta + 10 < 2 ^ 8 ∧
      (namedFgCode .Magenta + 10) % 2 ^ 8 = namedFgCode .Magenta + 10 ∧
      (40 ≤ namedFgCode .Magenta + 10 ∧ namedFgCode .Magenta + 10 ≤ 47 ∨
        100 ≤ namedFgCode .Magenta + 10 ∧ namedFgCode .Magenta + 10 ≤ 107) ∧
      (Lipbalm.new.setBackground .Magenta).apply_background =
        some (natToChars (namedFgCode .Magenta + 10)) :=
  c10_named_background_safe (Lipbalm.new.setBackground .Magenta) .Magenta rfl rfl

/-- C1 counterexample: with no hyperlink set but a foreground of
`Color::Hex("é")` (whose first character occupies two UTF-8 bytes, so the
slice `&hex[1..]` panics), `render` produces no string at all instead of the
SGR-wrapped output the claim promises for every builder. -/
theorem c1_counterexample :
    ({ Lipbalm.new with foreground := some (.Hex (S "é")) }).render (S "x") = none := by
  decide

/-- C1 amended: for every builder with no hyperlink set whose fragment
computation succeeds (true except for the panicking degenerate Hex payloads
of the counterexample), `render` returns exactly
`ESC [ P m text ESC [0m` where `P` is the `;`-join of the fragments taken in
the fixed order [foreground, background, bold, dim, italic, underline, blink,
reverse, hidden, strikethrough], one fragment per set/true field; when no
field is set the list is empty and the output degenerates to
`ESC [ m text ESC [0m`. -/
theorem c1_render_format (lb : Lipbalm) (text : Chars) (fs : List Chars)
    (hlink : lb.link = none) (hfs : fragmentList lb = some fs) :
    lb.render text =
      some (S "\x1b[" ++ joinSep (S ";") fs ++ S "m" ++ text ++ S "\x1b[0m") := by
  have h1 := sgrResult_eq lb text
  rw [hfs, Option.map_some', fragmentList_filter lb fs hfs] at h1
  simp [Lipbalm.render, h1, hlink]

theorem c1_render_format_witness :
    (Lipbalm.new.link = none ∧ fragmentList Lipbalm.new = some []) ∧
    Lipbalm.new.render (S "abc") =
      some (S "\x1b[" ++ joinSep (S ";") [] ++ S "m" ++ S "abc" ++ S "\x1b[0m") ∧
    Lipbalm.new.render (S "abc") = some (S "\x1b[mabc\x1b[0m") :=
  ⟨⟨rfl, rfl⟩, c1_render_format Lipbalm.new (S "abc") [] rfl rfl,
    (c1_render_format Lipbalm.new (S "abc") [] rfl rfl).trans (by decide)⟩

/-- C6: when a hyperlink target was set, `render` wraps the SGR result of the
previous steps in the OSC-8 sequence
`ESC ]8;; link ESC \ result ESC ]8;; ESC \`; when no link was ever set the
output is exactly the SGR result, with no OSC-8 wrapper. -/
theorem c6_hyperlink_wrapper :
    (∀ (lb : Lipbalm) (text l r : Chars), lb.link = some l →
      sgrResult lb text = some r →
      lb.render text =
        some (S "\x1b]8;;" ++ l ++ S "\x1b\\" ++ r ++ S "\x1b]8;;" ++ S "\x1b\\")) ∧
    (∀ (lb : Lipbalm) (text : Chars), lb.link = none →
      lb.render text = sgrResult lb text) := by
  constructor
  · intro lb text l r hl hr
    simp [Lipbalm.render, hr, hl]
  · intro lb text hl
    cases hr : sgrResult lb text <;> simp [Lipbalm.render, hr, hl]

theorem c6_hyperlink_wrapper_witness :
    ((Lipbalm.new.setForeground .Red).setLink (S "https://example.com")).render
        (S "Hello, world!") =
      some (S "\x1b]8;;" ++ S "https://example.com" ++ S "\x1b\\" ++
        S "\x1b[31mHello, world!\x1b[0m" ++ S "\x1b]8;;" ++ S "\x1b\\") ∧
    (Lipbalm.new.setForeground .Red).render (S "Hello, world!") =
      sgrResult (Lipbalm.new.setForeground .Red) (S "Hello, world!") :=
  ⟨c6_hyperlink_wrapper.1 ((Lipbalm.new.setForeground .Red).setLink
      (S "https://example.com")) (S "Hello, world!") (S "https://example.com")
      (S "\x1b[31mHello, world!\x1b[0m") rfl (by decide),
    c6_hyperlink_wrapper.2 (Lipbalm.new.setForeground .Red) (S "Hello, world!") rfl⟩

/-- C7: replacing a well-formed `#RRGGBB` Hex color by the Rgb color with the
same three parsed byte values leaves `render` unchanged, in the foreground
slot and in the background slot alike. -/
theorem c7_hex_rgb_equiv (lb : Lipbalm) (text s : Chars) (r g b : Nat)
    (hwf : isWellFormedHex s = true) (hparse : hex_to_rgb s = some (r, g, b)) :
    ({ lb with foreground := some (.Hex s) }).render text =
      ({ lb with foreground := some (.Rgb r g b) }).render text ∧
    ({ lb with background := some (.Hex s) }).render text =
      ({ lb with background := some (.Rgb r g b) }).render text := by
  have hansi : Color.to_ansi (.Hex s) = Color.to_ansi (.Rgb r g b) := by
    simp [Color.to_ansi, hparse]
  constructor
  · have hf : ({ lb with foreground := some (.Hex s) }).apply_foreground =
        ({ lb with foreground := some (.Rgb r g b) }).apply_foreground := by
      simp [Lipbalm.apply_foreground, hansi]
    simp [Lipbalm.render, sgrResult, Lipbalm.apply_background, pushStyles, hf]
  · have hb : ({ lb with background := some (.Hex s) }).apply_background =
        ({ lb with background := some (.Rgb r g b) }).apply_background := by
      simp [Lipbalm.apply_background, hansi]
    simp [Lipbalm.render, sgrResult, Lipbalm.apply_foreground, pushStyles, hb]

theorem c7_hex_rgb_equiv_witness :
    (isWellFormedHex (S "#ff0000") = true ∧
      hex_to_rgb (S "#ff0000") = some (255, 0, 0)) ∧
    ({ Lipbalm.new with
        foreground := some (.Hex (S "#ff0000")),
        background := some (.Hex (S "#00ff00")) }).render (S "Hello, world!") =
      ({ Lipbalm.new with
          foreground := some (.Rgb 255 0 0),
          background := some (.Rgb 0 255 0) }).render (S "Hello, world!") :=
  ⟨⟨by decide, by decide⟩,
    ((c7_hex_rgb_equiv { Lipbalm.new with background := some (.Hex (S "#00ff00")) }
        (S "Hello, world!") (S "#ff0000") 255 0 0 (by decide) (by decide)).1).trans
      ((c7_hex_rgb_equiv { Lipbalm.new with foreground := some (.Rgb 255 0 0) }
          (S "Hello, world!") (S "#00ff00") 0 255 0 (by decide) (by decide)).2)⟩

/-- C8: for every setter, calling it twice is the same as calling it once
with the second argument; in particular foreground Red then Reset renders
only the reset code "0", and bold set then unset renders no bold fragment
(the output equals the default builder's). -/
theorem c8_last_setter_wins :
    (∀ (lb : Lipbalm) (c1 c2 : Color),
      (lb.setForeground c1).setForeground c2 = lb.setForeground c2) ∧
    (∀ (lb : Lipbalm) (c1 c2 : Color),
      (lb.setBackground c1).setBackground c2 = lb.setBackground c2) ∧
    (∀ (lb : Lipbalm) (y1 y2 : Bool), (lb.setBold y1).setBold y2 = lb.setBold y2) ∧
    (∀ (lb : Lipbalm) (y1 y2 : Bool), (lb.setDim y1).setDim y2 = lb.setDim y2) ∧
    (∀ (lb : Lipbalm) (y1 y2 : Bool), (lb.setItalic y1).setItalic y2 = lb.setItalic y2) ∧
    (∀ (lb : Lipbalm) (y1 y2 : Bool),
      (lb.setUnderline y1).setUnderline y2 = lb.setUnderline y2) ∧
    (∀ (lb : Lipbalm) (y1 y2 : Bool), (lb.setBlink y1).setBlink y2 = lb.setBlink y2) ∧
    (∀ (lb : Lipbalm) (y1 y2 : Bool), (lb.setReverse y1).setReverse y2 = lb.setReverse y2) ∧
    (∀ (lb : Lipbalm) (y1 y2 : Bool), (lb.setHidden y1).setHidden y2 = lb.setHidden y2) ∧
    (∀ (lb : Lipbalm) (y1 y2 : Bool),
      (lb.setStrikethrough y1).setStrikethrough y2 = lb.setStrikethrough y2) ∧
    (∀ (lb : Lipbalm) (l1 l2 : Chars), (lb.setLink l1).setLink l2 = lb.setLink l2) ∧
    (∀ text : Chars, ((Lipbalm.new.setForeground .Red).setForeground .Reset).render text =
      some (S "\x1b[0m" ++ text ++ S "\x1b[0m")) ∧
    (∀ text : Chars, ((Lipbalm.new.setBold true).setBold false).render text =
      some (S "\x1b[m" ++ text ++ S "\x1b[0m")) ∧
    (∀ text : Chars, ((Lipbalm.new.setBold true).setBold false).render text =
      Lipbalm.new.render text) :=
  by
  repeat' apply And.intro
  all_goals intros
  all_goals rfl

/-- C9: the default builder has both colors unset, all eight attribute flags
false and no hyperlink; every setter changes only its own field and leaves
every other field unchanged.  (`render` takes the builder by shared reference
and is embedded as a pure function, so it cannot modify any field.) -/
theorem c9_defaults_and_frame :
    (Lipbalm.new.foreground = none ∧
      Lipbalm.new.background = none ∧
      Lipbalm.new.bold = false ∧
      Lipbalm.new.dim = false ∧
      Lipbalm.new.italic = false ∧
      Lipbalm.new.underline = false ∧
      Lipbalm.new.blink = false ∧
      Lipbalm.new.reverse = false ∧
      Lipbalm.new.hidden = false ∧
      Lipbalm.new.strikethrough = false ∧
      Lipbalm.new.link = none) ∧
    (∀ (lb : Lipbalm) (c : Color),
      (lb.setForeground c).foreground = some c ∧
      (lb.setForeground c).background = lb.background ∧
      (lb.setForeground c).bold = lb.bold ∧
      (lb.setForeground c).dim = lb.dim ∧
      (lb.setForeground c).italic = lb.italic ∧
      (lb.setForeground c).underline = lb.underline ∧
      (lb.setForeground c).blink = lb.blink ∧
      (lb.setForeground c).reverse = lb.reverse ∧
      (lb.setForeground c).hidden = lb.hidden ∧
      (lb.setForeground c).strikethrough = lb.strikethrough ∧
      (lb.setForeground c).link = lb.link) ∧
    (∀ (lb : Lipbalm) (c : Color),
      (lb.setBackground c).foreground = lb.foreground ∧
      (lb.setBackground c).background = some c ∧
      (lb.setBackground c).bold = lb.bold ∧
      (lb.setBackground c).dim = lb.dim ∧
      (lb.setBackground c).italic = lb.italic ∧
      (lb.setBackground c).underline = lb.underline ∧
      (lb.setBackground c).blink = lb.blink ∧
      (lb.setBackground c).reverse = lb.reverse ∧
      (lb.setBackground c).hidden = lb.hidden ∧
      (lb.setBackground c).strikethrough = lb.strikethrough ∧
      (lb.setBackground c).link = lb.link) ∧
    (∀ (lb : Lipbalm) (y : Bool),
      (lb.setBold y).foreground = lb.foreground ∧
      (lb.setBold y).background = lb.background ∧
      (lb.setBold y).bold = y ∧
      (lb.setBold y).dim = lb.dim ∧
      (lb.setBold y).italic = lb.italic ∧
      (lb.setBold y).underline = lb.underline ∧
      (lb.setBold y).blink = lb.blink ∧
      (lb.setBold y).reverse = lb.reverse ∧
      (lb.setBold y).hidden = lb.hidden ∧
      (lb.setBold y).strikethrough = lb.strikethrough ∧
      (lb.setBold y).link = lb.link) ∧
    (∀ (lb : Lipbalm) (y : Bool),
      (lb.setDim y).foreground = lb.foreground ∧
      (lb.setDim y).background = lb.background ∧
      (lb.setDim y).bold = lb.bold ∧
      (lb.setDim y).dim = y ∧
      (lb.setDim y).italic = lb.italic ∧
      (lb.setDim y).underline = lb.underline ∧
      (lb.setDim y).blink = lb.blink ∧
      (lb.setDim y).reverse = lb.reverse ∧
      (lb.setDim y).hidden = lb.hidden ∧
      (lb.setDim y).strikethrough = lb.strikethrough ∧
      (lb.setDim y).link = lb.link) ∧
    (∀ (lb : Lipbalm) (y : Bool),
      (lb.setItalic y).foreground = lb.foreground ∧
      (lb.setItalic y).background = lb.background ∧
      (lb.setItalic y).bold = lb.bold ∧
      (lb.setItalic y).dim = lb.dim ∧
      (lb.setItalic y).italic = y ∧
      (lb.setItalic y).underline = lb.underline ∧
      (lb.setItalic y).blink = lb.blink ∧
      (lb.setItalic y).reverse = lb.reverse ∧
      (lb.setItalic y).hidden = lb.hidden ∧
      (lb.setItalic y).strikethrough = lb.strikethrough ∧
      (lb.setItalic y).link = lb.link) ∧
    (∀ (lb : Lipbalm) (y : Bool),
      (lb.setUnderline y).foreground = lb.foreground ∧
      (lb.setUnderline y).background = lb.background ∧
      (lb.setUnderline y).bold = lb.bold ∧
      (lb.setUnderline y).dim = lb.dim ∧
      (lb.setUnderline y).italic = lb.italic ∧
      (lb.setUnderline y).underline = y ∧
      (lb.setUnderline y).blink = lb.blink ∧
      (lb.setUnderline y).reverse = lb.reverse ∧
      (lb.setUnderline y).hidden = lb.hidden ∧
      (lb.setUnderline y).strikethrough = lb.strikethrough ∧
      (lb.setUnderline y).link = lb.link) ∧
    (∀ (lb : Lipbalm) (y : Bool),
      (lb.setBlink y).foreground = lb.foreground ∧
      (lb.setBlink y).background = lb.background ∧
      (lb.setBlink y).bold = lb.bold ∧
      (lb.setBlink y).dim = lb.dim ∧
      (lb.setBlink y).italic = lb.italic ∧
      (lb.setBlink y).underline = lb.underline ∧
      (lb.setBlink y).blink = y ∧
      (lb.setBlink y).reverse = lb.reverse ∧
      (lb.setBlink y).hidden = lb.hidden ∧
      (lb.setBlink y).strikethrough = lb.strikethrough ∧
      (lb.setBlink y).link = lb.link) ∧
    (∀ (lb : Lipbalm) (y : Bool),
      (lb.setReverse y).foreground = lb.foreground ∧
      (lb.setReverse y).background = lb.background ∧
      (lb.setReverse y).bold = lb.bold ∧
      (lb.setReverse y).dim = lb.dim ∧
      (lb.setReverse y).italic = lb.italic ∧
      (lb.setReverse y).underline = lb.underline ∧
      (lb.setReverse y).blink = lb.blink ∧
      (lb.setReverse y).reverse = y ∧
      (lb.setReverse y).hidden = lb.hidden ∧
      (lb.setReverse y).strikethrough = lb.strikethrough ∧
      (lb.setReverse y).link = lb.link) ∧
    (∀ (lb : Lipbalm) (y : Bool),
      (lb.setHidden y).foreground = lb.foreground ∧
      (lb.setHidden y).background = lb.background ∧
      (lb.setHidden y).bold = lb.bold ∧
      (lb.setHidden y).dim = lb.dim ∧
      (lb.setHidden y).italic = lb.italic ∧
      (lb.setHidden y).underline = lb.underline ∧
      (lb.setHidden y).blink = lb.blink ∧
      (lb.setHidden y).reverse = lb.reverse ∧
      (lb.setHidden y).hidden = y ∧
      (lb.setHidden y).strikethrough = lb.strikethrough ∧
      (lb.setHidden y).link = lb.link) ∧
    (∀ (lb : Lipbalm) (y : Bool),
      (lb.setStrikethrough y).foreground = lb.foreground ∧
      (lb.setStrikethrough y).background = lb.background ∧
      (lb.setStrikethrough y).bold = lb.bold ∧
      (lb.setStrikethrough y).dim = lb.dim ∧
      (lb.setStrikethrough y).italic = lb.italic ∧
      (lb.setStrikethrough y).underline = lb.underline ∧
      (lb.setStrikethrough y).blink = lb.blink ∧
      (lb.setStrikethrough y).reverse = lb.reverse ∧
      (lb.setStrikethrough y).hidden = lb.hidden ∧
      (lb.setStrikethrough y).strikethrough = y ∧
      (lb.setStrikethrough y).link = lb.link) ∧
    (∀ (lb : Lipbalm) (l : Chars),
      (lb.setLink l).foreground = lb.foreground ∧
      (lb.setLink l).background = lb.background ∧
      (lb.setLink l).bold = lb.bold ∧
      (lb.setLink l).dim = lb.dim ∧
      (lb.setLink l).italic = lb.italic ∧
      (lb.setLink l).underline = lb.underline ∧
      (lb.setLink l).blink = lb.blink ∧
      (lb.setLink l).reverse = lb.reverse ∧
      (lb.setLink l).hidden = lb.hidden ∧
      (lb.setLink l).strikethrough = lb.strikethrough ∧
      (lb.setLink l).link = some l) := by
  repeat' apply And.intro
  all_goals intros
  all_goals repeat' apply And.intro
  all_goals rfl
